import Mathlib

/-!
Verification of the smart-contract risk scorer.

Shallow embedding of the scoring pipeline:
* `src/utils/scoring.js` (scam-keyword short circuit, suspicious patterns,
  API-not-found findings, weighted risk score, confidence),
* `src/utils/whitelist.js` (known-safe allow-list, stablecoin test),
* `src/analyzers/code-analyzer.js` (regex red-flag scan of source code),
* the liquidity analyzer (LP-holder lock classification and rug scoring),
* `src/services/token-sniffer.js` (RPC-only fallback scoring),
* the SQLite result cache (`CacheDB.get` / `CacheDB.delete`),
* the aggregation step of `analyzeContract` in `src/agent.js`.

JavaScript numbers are modelled by `ℚ` (all the constants involved are
decimal literals and the claims checked here are insensitive to the
float/rational distinction); machine strings by `String`; absent values
(`undefined` / `null`) by `Option`.
-/

namespace RiskScorer

/-! ### JavaScript string primitives -/

/-- Char-for-char lower casing, the model of `String.prototype.toLowerCase`
on the ASCII data handled by the scorer. -/
def lowerStr (s : String) : String :=
  String.mk (s.data.map Char.toLower)

/-- Does `pat` occur at the start of `s`? -/
def startsWithChars : List Char → List Char → Bool
  | [], _ => true
  | _ :: _, [] => false
  | a :: as, b :: bs => a == b && startsWithChars as bs

/-- Does `pat` occur somewhere inside `s`?  Model of
`String.prototype.includes`. -/
def hasSubChars (pat : List Char) : List Char → Bool
  | [] => startsWithChars pat []
  | c :: cs => startsWithChars pat (c :: cs) || hasSubChars pat cs

/-- `jsIncludes s pat` is JavaScript's `s.includes(pat)`. -/
def jsIncludes (s pat : String) : Bool :=
  hasSubChars pat.data s.data

/-- JavaScript truthiness of an optional string (`undefined` and `""` are
falsy). -/
def jsTruthyStr : Option String → Bool
  | none => false
  | some t => t != ""

/-- JavaScript truthiness of an optional number (`undefined` and `0` are
falsy). -/
def jsTruthyQ : Option ℚ → Bool
  | none => false
  | some x => x != 0

/-- `optGtQ o c` is JavaScript's `o > c` for a possibly-undefined number
(`undefined > c` is false). -/
def optGtQ (o : Option ℚ) (c : ℚ) : Bool :=
  match o with
  | none => false
  | some x => decide (x > c)

/-- `optLtQ o c` is JavaScript's `o < c` for a possibly-undefined number. -/
def optLtQ (o : Option ℚ) (c : ℚ) : Bool :=
  match o with
  | none => false
  | some x => decide (x < c)

/-- `Math.round`: round half towards positive infinity. -/
def jsRound (q : ℚ) : ℤ :=
  ⌊q + 1 / 2⌋

/-! ### `src/utils/whitelist.js` -/

/-- The static `KNOWN_SAFE_TOKENS` allow-list, verbatim from
`src/utils/whitelist.js`. -/
def KNOWN_SAFE_TOKENS : List String :=
  [ "0xa0b86991c6218b36c1d19d4a2e9eb0ce3606eb48"
  , "0xdac17f958d2ee523a2206206994597c13d831ec7"
  , "0x6b175474e89094c44da98b954eedeac495271d0f"
  , "0x4fabb145d64652a948d72533023f6e7a623c7c53"
  , "0xc02aaa39b223fe8d0a0e5c4f27ead9083c756cc2"
  , "0x2260fac5e5542a773aa44fbcfedf7c193bc2c599"
  , "0x514910771af9ca656af840dff83e8264ecf986ca"
  , "0x1f9840a85d5af5bf1d1762f925bdaddc4201f984"
  , "0x7d1afa7b718fb893db30a3abc0cfc608aacfebb0"
  , "0x7fc66500c84a76ad7e9c93437bfc5ac33e2ddae9"
  , "0x6b3595068778dd592e39a122f4f5a5cf09c90fe2"
  , "0xc00e94cb662c3520282e6f5717214004a7f26888"
  , "0x9f8f72aa9304c8b593d555f12ef6589cc3a579a2"
  , "0xb8c77482e45f1f44de1745f52c74426c631bdd52"
  , "0x50d1c9771902476076ecfc8b2a83ad6b9355a4c9"
  , "0xa0b73e1ff0b80914ab6fe0444e65848c4c34450b"
  , "0x75231f58b43240c9718dd58b4967c5114342a86c"
  , "0x6f259637dcd74c767781e37bc6133cd6a68aa161"
  , "0x4a220e6096b25eadb88358cb44068a3248254675" ]

/-- `isKnownSafeToken` from `src/utils/whitelist.js`. -/
def isKnownSafeToken (address : String) : Bool :=
  KNOWN_SAFE_TOKENS.contains (lowerStr address)

/-- Stablecoin keyword table from `isStablecoin`. -/
def stablecoinKeywords : List String :=
  ["usd", "usdc", "usdt", "dai", "busd", "tusd", "gusd", "pax"]

/-- `isStablecoin` from `src/utils/whitelist.js`. -/
def isStablecoin (symbol name : Option String) : Bool :=
  if !jsTruthyStr symbol && !jsTruthyStr name then false
  else
    let text := lowerStr ((symbol.getD "") ++ " " ++ (name.getD ""))
    stablecoinKeywords.any (fun keyword => jsIncludes text keyword)

/-! ### Scam-keyword short circuit (`detectScamKeywords`) -/

/-- The fixed scam-keyword list from `detectScamKeywords` in
`src/utils/scoring.js`. -/
def scamKeywords : List String :=
  [ "scam", "beware", "fake", "phishing", "warning", "honeypot"
  , "fraud", "ponzi", "rugpull", "rug pull", "exit scam", "dont buy"
  , "don\x27t buy", "stay away", "avoid", "stolen", "hacked" ]

/-- `detectScamKeywords` from `src/utils/scoring.js`: the first scam keyword
occurring in the lower-cased `"<name> <symbol>"` text, if any. -/
def detectScamKeywords (name symbol : Option String) : Option String :=
  let text := lowerStr ((name.getD "") ++ " " ++ (symbol.getD ""))
  scamKeywords.find? (fun keyword => jsIncludes text keyword)

/-! ### Data model of the `analyses` record consumed by the scorer -/

/-- The `contractInfo` object, with the fields read by the scorer.  Absent
fields are `none` (JavaScript `undefined`). -/
structure ContractInfo where
  address : Option String
  name : Option String
  symbol : Option String
  verified : Bool
  ageInDays : Option ℚ
  transactionCount : Option ℚ
  creator : Option String
  creationTxHash : Option String
  deriving DecidableEq

/-- Result of `analyzeSourceCode` as seen by the scorer. -/
structure CodeAnalysisR where
  analyzed : Bool
  score : ℚ
  deriving DecidableEq

/-- Result of `analyzeOwnership` as seen by the scorer. -/
structure OwnershipR where
  score : ℚ
  hasOwner : Option Bool
  deriving DecidableEq

/-- Result of `analyzeLiquidity` as seen by the scorer. -/
structure LiquidityR where
  score : ℚ
  hasLiquidity : Option Bool
  deriving DecidableEq

/-- Result of `analyzeBehavior` as seen by the scorer. -/
structure BehaviorR where
  score : ℚ
  deriving DecidableEq

/-- A `{score, findings}` oracle risk contribution (Token Sniffer, GoPlus,
holder concentration, creator holding). -/
structure RiskContrib where
  score : ℚ
  deriving DecidableEq

/-- Raw Token Sniffer response, as read by the scorer. -/
structure TokenSnifferResult where
  checked : Bool
  deriving DecidableEq

/-- Raw GoPlus response, as read by the scorer and by the fallback scorer. -/
structure GoplusResult where
  checked : Bool
  is_honeypot : Option Bool
  buy_tax : Option ℚ
  sell_tax : Option ℚ
  hidden_owner : Option Bool
  cannot_sell_all : Option Bool
  deriving DecidableEq

/-- Result of `analyzeCreatorHistory` as seen by the scorer. -/
structure CreatorHistoryR where
  analyzed : Bool
  score : ℚ
  deriving DecidableEq

/-- The full `analyses` record destructured at the top of
`calculateRiskScore` / `calculateConfidence`. -/
structure Analyses where
  codeAnalysis : Option CodeAnalysisR
  ownershipAnalysis : Option OwnershipR
  liquidityAnalysis : Option LiquidityR
  behaviorAnalysis : Option BehaviorR
  contractInfo : Option ContractInfo
  tokenSnifferRisk : Option RiskContrib
  tokenSnifferResult : Option TokenSnifferResult
  goplusRisk : Option RiskContrib
  goplusResult : Option GoplusResult
  creatorHistoryAnalysis : Option CreatorHistoryR
  holderAnalysis : Option RiskContrib
  creatorHoldingAnalysis : Option RiskContrib
  deriving DecidableEq

/-- `contractInfo?.address`. -/
def ciAddress (ci : Option ContractInfo) : Option String := ci.bind (·.address)

/-- `contractInfo?.name`. -/
def ciName (ci : Option ContractInfo) : Option String := ci.bind (·.name)

/-- `contractInfo?.symbol`. -/
def ciSymbol (ci : Option ContractInfo) : Option String := ci.bind (·.symbol)

/-- `contractInfo?.verified` (as a boolean condition). -/
def ciVerified (ci : Option ContractInfo) : Bool := (ci.map (·.verified)).getD false

/-- `contractInfo?.ageInDays`. -/
def ciAge (ci : Option ContractInfo) : Option ℚ := ci.bind (·.ageInDays)

/-- `contractInfo?.transactionCount`. -/
def ciTxCount (ci : Option ContractInfo) : Option ℚ := ci.bind (·.transactionCount)

/-! ### Derived findings (`detectSuspiciousPatterns`, `detectAPINotFound`) -/

/-- A derived finding: its `type` tag and its score. -/
structure Finding where
  ftype : String
  score : ℚ
  deriving DecidableEq

/-- `detectSuspiciousPatterns` from `src/utils/scoring.js` (the
`behaviorAnalysis` argument is never read there, so it is not a
parameter here). -/
def detectSuspiciousPatterns (ci : Option ContractInfo) : List Finding :=
  if jsTruthyStr (ciAddress ci) && isKnownSafeToken ((ciAddress ci).getD "") then []
  else
    let oldLowActivity :=
      if optGtQ (ciAge ci) 365 && optLtQ (ciTxCount ci) 5000 then
        let age := (ciAge ci).getD 0
        let tx := (ciTxCount ci).getD 0
        let avgTxPerDay := tx / age
        if decide (avgTxPerDay < 1) && (!ciVerified ci || optLtQ (ciAge ci) 730) then
          [⟨"abandoned_or_suspicious", 15⟩]
        else []
      else []
    let unverifiedOld :=
      if !ciVerified ci && optGtQ (ciAge ci) 30 then
        [⟨"unverified_old_contract", 20⟩]
      else []
    oldLowActivity ++ unverifiedOld

/-- `detectAPINotFound` from `src/utils/scoring.js`.  The Token Sniffer
result is inspected there only in a branch with an empty body, so it is an
unused argument. -/
def detectAPINotFound (_tokenSnifferResult : Option TokenSnifferResult)
    (goplusResult : Option GoplusResult) (ci : Option ContractInfo) : List Finding :=
  let hasNoCreationData :=
    !jsTruthyStr (ci.bind (·.creator)) && !jsTruthyStr (ci.bind (·.creationTxHash))
  let hasNoActivity := decide (ciTxCount ci = some 0)
  if hasNoCreationData || hasNoActivity then
    [⟨"contract_not_found", 40⟩]
  else
    let isOld := optGtQ (ciAge ci) 30
    let notInDb :=
      match goplusResult with
      | some g => if !g.checked && isOld then [⟨"not_in_security_databases", 10⟩] else []
      | none => []
    let noTradingData :=
      match goplusResult with
      | some g =>
        if g.checked && isOld
            && decide (g.is_honeypot = none) && decide (g.buy_tax = none)
            && decide (g.sell_tax = none) then
          [⟨"no_trading_data", 10⟩]
        else []
      | none => []
    notInDb ++ noTradingData

/-! ### `calculateRiskScore` -/

/-- Sum of the scores of a list of findings. -/
def findingsSum (fs : List Finding) : ℚ :=
  (fs.map (·.score)).sum

/-- The `tokenSnifferRisk && tokenSnifferRisk.score` style contribution of an
oracle `{score}` object: added only when the object exists and its score is
truthy (non-zero). -/
def contribOf (r : Option RiskContrib) : ℚ :=
  match r with
  | some c => if c.score != 0 then c.score else 0
  | none => 0

/-- `creatorHistoryAnalysis && creatorHistoryAnalysis.score` contribution. -/
def contribOfCreator (r : Option CreatorHistoryR) : ℚ :=
  match r with
  | some c => if c.score != 0 then c.score else 0
  | none => 0

/-- The code-analysis contribution to `internalAdjustments`: the code score
when analyzed, otherwise +15 for an unverified contract. -/
def codeContribution (a : Analyses) : ℚ :=
  match a.codeAnalysis with
  | some c => if c.analyzed then c.score else (if !ciVerified a.contractInfo then 15 else 0)
  | none => if !ciVerified a.contractInfo then 15 else 0

/-- The accumulated `internalAdjustments` of `calculateRiskScore`: code,
ownership, liquidity and behavior contributions plus the suspicious-pattern
findings. -/
def internalAdjustments (a : Analyses) : ℚ :=
  codeContribution a
    + ((a.ownershipAnalysis.map (·.score)).getD 0)
    + ((a.liquidityAnalysis.map (·.score)).getD 0)
    + ((a.behaviorAnalysis.map (·.score)).getD 0)
    + findingsSum (detectSuspiciousPatterns a.contractInfo)

/-- The accumulated `externalAdjustments` of `calculateRiskScore`: the five
oracle contributions plus the API-not-found findings. -/
def externalAdjustments (a : Analyses) : ℚ :=
  contribOf a.tokenSnifferRisk
    + contribOf a.goplusRisk
    + contribOfCreator a.creatorHistoryAnalysis
    + contribOf a.holderAnalysis
    + contribOf a.creatorHoldingAnalysis
    + findingsSum (detectAPINotFound a.tokenSnifferResult a.goplusResult a.contractInfo)

/-- The weighted, clamped score `Math.max(0, Math.min(100, 50 + 0.4·internal
+ 0.6·external))`. -/
def clampedScore (a : Analyses) : ℚ :=
  max 0 (min 100 (50 + (internalAdjustments a * (2 / 5) + externalAdjustments a * (3 / 5))))

/-- Is the known-safe-token override applicable (`contractInfo?.address &&
isKnownSafeToken(...)`)? -/
def safeOverrideApplies (a : Analyses) : Bool :=
  jsTruthyStr (ciAddress a.contractInfo)
    && isKnownSafeToken ((ciAddress a.contractInfo).getD "")

/-- The override step: cap at 15 for known-safe addresses, else at 20 for
verified stablecoins. -/
def overriddenScore (a : Analyses) : ℚ :=
  if safeOverrideApplies a then
    min (clampedScore a) 15
  else if ciVerified a.contractInfo
      && isStablecoin (ciSymbol a.contractInfo) (ciName a.contractInfo) then
    min (clampedScore a) 20
  else clampedScore a

/-- `calculateRiskScore` from `src/utils/scoring.js`, returning the rounded
integer risk score. -/
def calculateRiskScore (a : Analyses) : ℤ :=
  match detectScamKeywords (ciName a.contractInfo) (ciSymbol a.contractInfo) with
  | some _ => 95
  | none => jsRound (overriddenScore a)

/-! ### `calculateConfidence` -/

/-- Confidence increment for verified + analyzed source (+0.15). -/
def confSourceInc (a : Analyses) : ℚ :=
  if ciVerified a.contractInfo && ((a.codeAnalysis.map (·.analyzed)).getD false)
    then 3 / 20 else 0

/-- Confidence increment for available ownership data (+0.05). -/
def confOwnerInc (a : Analyses) : ℚ :=
  if decide ((a.ownershipAnalysis.bind (·.hasOwner)) ≠ none) then 1 / 20 else 0

/-- Confidence increment for available liquidity data (+0.05). -/
def confLiquidityInc (a : Analyses) : ℚ :=
  if decide ((a.liquidityAnalysis.bind (·.hasLiquidity)) ≠ none) then 1 / 20 else 0

/-- Confidence increment for contract age above 7 days (+0.05). -/
def confAgeInc (a : Analyses) : ℚ :=
  if jsTruthyQ (ciAge a.contractInfo) && optGtQ (ciAge a.contractInfo) 7
    then 1 / 20 else 0

/-- Confidence increment for a completed Token Sniffer check (+0.1). -/
def confSnifferInc (a : Analyses) : ℚ :=
  if (a.tokenSnifferResult.map (·.checked)).getD false then 1 / 10 else 0

/-- Confidence increment for a completed GoPlus check (+0.15). -/
def confGoplusInc (a : Analyses) : ℚ :=
  if (a.goplusResult.map (·.checked)).getD false then 3 / 20 else 0

/-- Confidence increment for a completed creator-history analysis (+0.1). -/
def confCreatorInc (a : Analyses) : ℚ :=
  if (a.creatorHistoryAnalysis.map (·.analyzed)).getD false then 1 / 10 else 0

/-- `calculateConfidence` from `src/utils/scoring.js`: base 0.5, plus the
fixed increments, capped at 1.0. -/
def calculateConfidence (a : Analyses) : ℚ :=
  min 1 (1 / 2 + confSourceInc a + confOwnerInc a + confLiquidityInc a + confAgeInc a
    + confSnifferInc a + confGoplusInc a + confCreatorInc a)

/-! ### `calculateRPCOnlyRiskScore` (fallback path) -/

/-- The vulnerability tag pushed for a bytecode finding in the fallback
scorer (`null` when the pattern is not one of the three recognized ones). -/
def bytecodeVulnTag (pat : String) : Option String :=
  if pat == "potential_selfdestruct" then some "potential_selfdestruct"
  else if pat == "delegatecall" then some "proxy_pattern"
  else if pat == "erc20_standard" then some "erc20_standard"
  else none

/-- GoPlus additions to the fallback score: honeypot +40, hidden owner +15,
high tax +15, cannot-sell-all +25. -/
def goplusFallbackScore (g : GoplusResult) : ℤ :=
  (if g.is_honeypot = some true then 40 else 0)
    + (if g.hidden_owner = some true then 15 else 0)
    + (if optGtQ g.buy_tax 10 || optGtQ g.sell_tax 10 then 15 else 0)
    + (if g.cannot_sell_all = some true then 25 else 0)

/-- `calculateRPCOnlyRiskScore` from the fallback analyzer: base 10 for the
unverified source, plus the GoPlus additions, capped at 100.  The
`contractInfo` argument is never read by the original function; the result is
the score together with the pushed vulnerability tags. -/
def calculateRPCOnlyRiskScore (_ci : ContractInfo) (goplusData : Option GoplusResult)
    (bytecodeFindings : List String) : ℤ × List String :=
  let score : ℤ := 10 + (match goplusData with | some g => goplusFallbackScore g | none => 0)
  let vulns :=
    "unverified_source" :: bytecodeFindings.filterMap bytecodeVulnTag
      ++ (match goplusData with
          | some g =>
            (if g.is_honeypot = some true then ["honeypot"] else [])
              ++ (if g.hidden_owner = some true then ["hidden_owner"] else [])
              ++ (if optGtQ g.buy_tax 10 || optGtQ g.sell_tax 10 then ["high_tax"] else [])
              ++ (if g.cannot_sell_all = some true then ["cannot_sell"] else [])
          | none => [])
  (min score 100, vulns)

/-! ### Aggregation step of `analyzeContract` (`src/agent.js`) -/

/-- The local analysis state of one `analyzeContract` run at step 7
("Calculate risk score").  The token name and symbol come from
`rpcClient.getTokenInfo` (defaulting to `"Unknown"` / `"UNKNOWN"`), so they
are always strings. -/
structure RunData where
  usingFallback : Bool
  codeAnalysis : CodeAnalysisR
  ownershipAnalysis : OwnershipR
  liquidityAnalysis : LiquidityR
  behaviorAnalysis : BehaviorR
  contractInfo : ContractInfo
  tokenName : String
  tokenSymbol : String
  tokenSnifferResult : Option TokenSnifferResult
  tokenSnifferRisk : RiskContrib
  goplusResult : Option GoplusResult
  goplusRisk : RiskContrib
  creatorHistoryAnalysis : CreatorHistoryR
  holderAnalysis : RiskContrib
  creatorHoldingAnalysis : RiskContrib
  bytecodeFindings : List String
  deriving DecidableEq

/-- The `analyses` object built in the non-fallback branch of
`analyzeContract`: all run locals, with `contractInfo.name` and `.symbol`
overridden by the token info. -/
def buildAnalyses (r : RunData) : Analyses where
  codeAnalysis := some r.codeAnalysis
  ownershipAnalysis := some r.ownershipAnalysis
  liquidityAnalysis := some r.liquidityAnalysis
  behaviorAnalysis := some r.behaviorAnalysis
  contractInfo := some { r.contractInfo with name := some r.tokenName, symbol := some r.tokenSymbol }
  tokenSnifferRisk := some r.tokenSnifferRisk
  tokenSnifferResult := r.tokenSnifferResult
  goplusRisk := some r.goplusRisk
  goplusResult := r.goplusResult
  creatorHistoryAnalysis := some r.creatorHistoryAnalysis
  holderAnalysis := some r.holderAnalysis
  creatorHoldingAnalysis := some r.creatorHoldingAnalysis

/-- The risk score of one run: the RPC-only fallback score in fallback mode,
the full `calculateRiskScore` otherwise. -/
def agentRiskScore (r : RunData) : ℤ :=
  if r.usingFallback then
    (calculateRPCOnlyRiskScore r.contractInfo r.goplusResult r.bytecodeFindings).1
  else
    calculateRiskScore (buildAnalyses r)

/-- The confidence of one run
(`usingFallback ? 0.7 : calculateConfidence({ codeAnalysis, ownershipAnalysis })`,
`src/agent.js` line 285): note that only `codeAnalysis` and
`ownershipAnalysis` are passed to `calculateConfidence`; every other field of
its argument is `undefined`. -/
def agentConfidence (r : RunData) : ℚ :=
  if r.usingFallback then 7 / 10
  else
    calculateConfidence
      { codeAnalysis := some r.codeAnalysis
      , ownershipAnalysis := some r.ownershipAnalysis
      , liquidityAnalysis := none
      , behaviorAnalysis := none
      , contractInfo := none
      , tokenSnifferRisk := none
      , tokenSnifferResult := none
      , goplusRisk := none
      , goplusResult := none
      , creatorHistoryAnalysis := none
      , holderAnalysis := none
      , creatorHoldingAnalysis := none }

/-! ### Helper lemmas -/

/-- The lower-cased `"<name> <symbol>"` text scanned for scam keywords. -/
def scamScanText (name symbol : Option String) : String :=
  lowerStr ((name.getD "") ++ " " ++ (symbol.getD ""))

theorem detectScamKeywords_isSome (name symbol : Option String)
    (h : ∃ kw ∈ scamKeywords, jsIncludes (scamScanText name symbol) kw = true) :
    ∃ k, detectScamKeywords name symbol = some k := by
  rcases h with ⟨kw, hmem, hinc⟩
  have : (detectScamKeywords name symbol).isSome = true := by
    rw [detectScamKeywords, List.find?_isSome]
    exact ⟨kw, hmem, hinc⟩
  exact Option.isSome_iff_exists.mp this

theorem calculateRiskScore_scam (a : Analyses) (k : String)
    (h : detectScamKeywords (ciName a.contractInfo) (ciSymbol a.contractInfo) = some k) :
    calculateRiskScore a = 95 := by
  rw [calculateRiskScore, h]

theorem jsRound_nonneg {q : ℚ} (h : 0 ≤ q) : 0 ≤ jsRound q := by
  rw [jsRound]
  exact Int.le_floor.mpr (by norm_num; linarith)

theorem jsRound_le {q : ℚ} {c : ℤ} (h : q ≤ (c : ℚ)) : jsRound q ≤ c := by
  rw [jsRound]
  refine Int.floor_le_iff.mpr ?_
  linarith

theorem clampedScore_bounds (a : Analyses) : 0 ≤ clampedScore a ∧ clampedScore a ≤ 100 := by
  constructor
  · exact le_max_left 0 _
  · exact max_le (by norm_num) (min_le_left _ _)

theorem overriddenScore_bounds (a : Analyses) :
    0 ≤ overriddenScore a ∧ overriddenScore a ≤ 100 := by
  obtain ⟨h0, h100⟩ := clampedScore_bounds a
  rw [overriddenScore]
  split
  · exact ⟨le_min h0 (by norm_num), le_trans (min_le_left _ _) h100⟩
  · split
    · exact ⟨le_min h0 (by norm_num), le_trans (min_le_left _ _) h100⟩
    · exact ⟨h0, h100⟩

theorem calculateRiskScore_bounds (a : Analyses) :
    0 ≤ calculateRiskScore a ∧ calculateRiskScore a ≤ 100 := by
  rw [calculateRiskScore]
  cases detectScamKeywords (ciName a.contractInfo) (ciSymbol a.contractInfo) with
  | some k => exact ⟨by norm_num, by norm_num⟩
  | none =>
    obtain ⟨h0, h100⟩ := overriddenScore_bounds a
    exact ⟨jsRound_nonneg h0, jsRound_le (by exact_mod_cast h100)⟩

theorem goplusFallbackScore_nonneg (g : GoplusResult) : 0 ≤ goplusFallbackScore g := by
  rw [goplusFallbackScore]
  have h1 : (0:ℤ) ≤ if g.is_honeypot = some true then 40 else 0 := by split <;> norm_num
  have h2 : (0:ℤ) ≤ if g.hidden_owner = some true then 15 else 0 := by split <;> norm_num
  have h3 : (0:ℤ) ≤ if (optGtQ g.buy_tax 10 || optGtQ g.sell_tax 10) = true then 15 else 0 := by
    split <;> norm_num
  have h4 : (0:ℤ) ≤ if g.cannot_sell_all = some true then 25 else 0 := by split <;> norm_num
  linarith

theorem calculateRPCOnlyRiskScore_bounds (ci : ContractInfo) (g : Option GoplusResult)
    (bf : List String) :
    0 ≤ (calculateRPCOnlyRiskScore ci g bf).1 ∧ (calculateRPCOnlyRiskScore ci g bf).1 ≤ 100 := by
  rw [calculateRPCOnlyRiskScore.eq_def]
  refine ⟨le_min ?_ (by norm_num), min_le_right _ _⟩
  cases g with
  | none => norm_num
  | some g => have := goplusFallbackScore_nonneg g; simp only []; linarith

theorem calculateConfidence_bounds (a : Analyses) :
    1 / 2 ≤ calculateConfidence a ∧ calculateConfidence a ≤ 1 := by
  have h1 : 0 ≤ confSourceInc a := by rw [confSourceInc]; split <;> norm_num
  have h2 : 0 ≤ confOwnerInc a := by rw [confOwnerInc]; split <;> norm_num
  have h3 : 0 ≤ confLiquidityInc a := by rw [confLiquidityInc]; split <;> norm_num
  have h4 : 0 ≤ confAgeInc a := by rw [confAgeInc]; split <;> norm_num
  have h5 : 0 ≤ confSnifferInc a := by rw [confSnifferInc]; split <;> norm_num
  have h6 : 0 ≤ confGoplusInc a := by rw [confGoplusInc]; split <;> norm_num
  have h7 : 0 ≤ confCreatorInc a := by rw [confCreatorInc]; split <;> norm_num
  rw [calculateConfidence]
  exact ⟨le_min (by norm_num) (by linarith), min_le_left _ _⟩

/-- The empty `analyses` record (every field `undefined`), a convenient base
for concrete inputs. -/
def emptyAnalyses : Analyses :=
  { codeAnalysis := none
  , ownershipAnalysis := none
  , liquidityAnalysis := none
  , behaviorAnalysis := none
  , contractInfo := none
  , tokenSnifferRisk := none
  , tokenSnifferResult := none
  , goplusRisk := none
  , goplusResult := none
  , creatorHistoryAnalysis := none
  , holderAnalysis := none
  , creatorHoldingAnalysis := none }

/-- A `contractInfo` with every field absent. -/
def emptyContractInfo : ContractInfo :=
  { address := none
  , name := none
  , symbol := none
  , verified := false
  , ageInDays := none
  , transactionCount := none
  , creator := none
  , creationTxHash := none }

/-! ### Claim theorems -/

/-- C1: for every contract whose token name or symbol contains one of the
fixed scam keywords (case-insensitive substring match), `calculateRiskScore`
returns exactly 95 regardless of all other inputs — the weighted sum,
overrides and rounding are skipped. -/
theorem scam_keyword_forces_score_95 (a : Analyses)
    (h : ∃ kw ∈ scamKeywords,
      jsIncludes (scamScanText (ciName a.contractInfo) (ciSymbol a.contractInfo)) kw = true) :
    calculateRiskScore a = 95 := by
  obtain ⟨k, hk⟩ := detectScamKeywords_isSome _ _ h
  exact calculateRiskScore_scam a k hk

/-- Witness for C1: a token named "HONEYPOT Token" scores 95. -/
theorem scam_keyword_forces_score_95_witness :
    (∃ kw ∈ scamKeywords,
      jsIncludes (scamScanText
        (ciName (some { emptyContractInfo with name := some "HONEYPOT Token" }))
        (ciSymbol (some { emptyContractInfo with name := some "HONEYPOT Token" }))) kw = true)
    ∧ calculateRiskScore
        { emptyAnalyses with contractInfo := some { emptyContractInfo with name := some "HONEYPOT Token" } }
      = 95 :=
  ⟨by decide,
    scam_keyword_forces_score_95
      { emptyAnalyses with contractInfo := some { emptyContractInfo with name := some "HONEYPOT Token" } }
      (by decide)⟩

/-- C10: the obvious-scam short circuit takes strict precedence over the
known-safe override: a known-safe address whose name or symbol contains a
scam keyword still scores 95, never the 15 cap. -/
theorem scam_keyword_beats_safe_override (a : Analyses) (addr : String)
    (_ha : ciAddress a.contractInfo = some addr)
    (_hsafe : isKnownSafeToken addr = true)
    (h : ∃ kw ∈ scamKeywords,
      jsIncludes (scamScanText (ciName a.contractInfo) (ciSymbol a.contractInfo)) kw = true) :
    calculateRiskScore a = 95 := by
  obtain ⟨k, hk⟩ := detectScamKeywords_isSome _ _ h
  exact calculateRiskScore_scam a k hk

/-- Witness for C10: the USDC allow-list address with a "scam"-bearing name
scores 95 rather than being capped at 15. -/
theorem scam_keyword_beats_safe_override_witness :
    ciAddress (some { emptyContractInfo with
        address := some "0xa0b86991c6218b36c1d19d4a2e9eb0ce3606eb48"
      , name := some "USDC scam warning" }) = some "0xa0b86991c6218b36c1d19d4a2e9eb0ce3606eb48"
    ∧ isKnownSafeToken "0xa0b86991c6218b36c1d19d4a2e9eb0ce3606eb48" = true
    ∧ calculateRiskScore
        { emptyAnalyses with contractInfo := some { emptyContractInfo with
            address := some "0xa0b86991c6218b36c1d19d4a2e9eb0ce3606eb48"
          , name := some "USDC scam warning" } }
      = 95 :=
  ⟨by decide, by decide,
    scam_keyword_beats_safe_override
      { emptyAnalyses with contractInfo := some { emptyContractInfo with
          address := some "0xa0b86991c6218b36c1d19d4a2e9eb0ce3606eb48"
        , name := some "USDC scam warning" } }
      "0xa0b86991c6218b36c1d19d4a2e9eb0ce3606eb48" (by decide) (by decide) (by decide)⟩

/-- Counterexample to C2 as stated: the USDC allow-list address with a
scam-keyword name scores 95, not at most 15 — the scam short circuit fires
before the known-safe cap. -/
theorem safe_cap_counterexample :
    isKnownSafeToken "0xa0b86991c6218b36c1d19d4a2e9eb0ce3606eb48" = true
    ∧ calculateRiskScore
        { emptyAnalyses with contractInfo := some { emptyContractInfo with
            address := some "0xa0b86991c6218b36c1d19d4a2e9eb0ce3606eb48"
          , name := some "USDC scam warning" } }
      = 95
    ∧ ¬ (calculateRiskScore
        { emptyAnalyses with contractInfo := some { emptyContractInfo with
            address := some "0xa0b86991c6218b36c1d19d4a2e9eb0ce3606eb48"
          , name := some "USDC scam warning" } }
      ≤ 15) := by
  refine ⟨by decide, by decide, by decide⟩

/-- C2 (amended): for every analysis of a contract whose address is on the
known-safe allow-list, and whose name/symbol contain no scam keyword, the
final risk score is at most 15 even when the raw weighted computation
exceeds 15. -/
theorem safe_address_caps_score_at_15 (a : Analyses) (addr : String)
    (ha : ciAddress a.contractInfo = some addr)
    (hsafe : isKnownSafeToken addr = true)
    (hscam : detectScamKeywords (ciName a.contractInfo) (ciSymbol a.contractInfo) = none) :
    calculateRiskScore a ≤ 15 := by
  rw [calculateRiskScore, hscam]
  have haddr : addr ≠ "" := by
    intro e
    subst e
    revert hsafe
    decide
  have hover : safeOverrideApplies a = true := by
    rw [safeOverrideApplies, ha]
    simp [jsTruthyStr, haddr, hsafe, bne_iff_ne]
  have h15 : overriddenScore a ≤ 15 := by
    rw [overriddenScore, if_pos hover]
    exact min_le_right _ _
  exact jsRound_le (by exact_mod_cast h15)

/-- Witness for C2 (amended): the USDC address with an innocuous name is
capped at 15 (its raw weighted computation is 56). -/
theorem safe_address_caps_score_at_15_witness :
    ciAddress (some { emptyContractInfo with
        address := some "0xa0b86991c6218b36c1d19d4a2e9eb0ce3606eb48"
      , name := some "USD Coin", symbol := some "USDC" })
      = some "0xa0b86991c6218b36c1d19d4a2e9eb0ce3606eb48"
    ∧ isKnownSafeToken "0xa0b86991c6218b36c1d19d4a2e9eb0ce3606eb48" = true
    ∧ detectScamKeywords (some "USD Coin") (some "USDC") = none
    ∧ calculateRiskScore
        { emptyAnalyses with contractInfo := some { emptyContractInfo with
            address := some "0xa0b86991c6218b36c1d19d4a2e9eb0ce3606eb48"
          , name := some "USD Coin", symbol := some "USDC" } }
      ≤ 15 :=
  ⟨by decide, by decide, by decide,
    safe_address_caps_score_at_15
      { emptyAnalyses with contractInfo := some { emptyContractInfo with
          address := some "0xa0b86991c6218b36c1d19d4a2e9eb0ce3606eb48"
        , name := some "USD Coin", symbol := some "USDC" } }
      "0xa0b86991c6218b36c1d19d4a2e9eb0ce3606eb48" (by decide) (by decide) (by decide)⟩

/-- C3: on both the full path and the RPC-only fallback path, the risk score
of a run is an integer in [0, 100] (integrality is by construction: the
score has type `ℤ`), and the confidence is in [0, 1]. -/
theorem pipeline_score_and_confidence_bounds (r : RunData) :
    0 ≤ agentRiskScore r ∧ agentRiskScore r ≤ 100
    ∧ 0 ≤ agentConfidence r ∧ agentConfidence r ≤ 1 := by
  have hs : 0 ≤ agentRiskScore r ∧ agentRiskScore r ≤ 100 := by
    rw [agentRiskScore]
    split
    · exact calculateRPCOnlyRiskScore_bounds _ _ _
    · exact calculateRiskScore_bounds _
  have hc : 0 ≤ agentConfidence r ∧ agentConfidence r ≤ 1 := by
    rw [agentConfidence]
    split
    · norm_num
    · obtain ⟨hl, hu⟩ := calculateConfidence_bounds
        { codeAnalysis := some r.codeAnalysis
        , ownershipAnalysis := some r.ownershipAnalysis
        , liquidityAnalysis := none
        , behaviorAnalysis := none
        , contractInfo := none
        , tokenSnifferRisk := none
        , tokenSnifferResult := none
        , goplusRisk := none
        , goplusResult := none
        , creatorHistoryAnalysis := none
        , holderAnalysis := none
        , creatorHoldingAnalysis := none }
      exact ⟨le_trans (by norm_num) hl, hu⟩
  exact ⟨hs.1, hs.2, hc.1, hc.2⟩

/-- C9: whenever a run ends in fallback mode, its confidence is the constant
0.7, for every combination of analyzer and oracle outcomes —
`calculateConfidence` is never consulted in this mode. -/
theorem fallback_confidence_is_constant (r : RunData) (h : r.usingFallback = true) :
    agentConfidence r = 7 / 10 := by
  rw [agentConfidence, if_pos h]

/-- A concrete baseline run used by the confidence evaluations: full path
(no fallback), nothing verified, no oracle data. -/
def baseRun : RunData :=
  { usingFallback := false
  , codeAnalysis := { analyzed := false, score := 0 }
  , ownershipAnalysis := { score := 0, hasOwner := none }
  , liquidityAnalysis := { score := 0, hasLiquidity := none }
  , behaviorAnalysis := { score := 0 }
  , contractInfo := emptyContractInfo
  , tokenName := "Unknown"
  , tokenSymbol := "UNKNOWN"
  , tokenSnifferResult := none
  , tokenSnifferRisk := { score := 0 }
  , goplusResult := none
  , goplusRisk := { score := 0 }
  , creatorHistoryAnalysis := { analyzed := false, score := 0 }
  , holderAnalysis := { score := 0 }
  , creatorHoldingAnalysis := { score := 0 }
  , bytecodeFindings := [] }

/-- Witness for C9: a concrete fallback run has confidence 0.7. -/
theorem fallback_confidence_is_constant_witness :
    ({ baseRun with usingFallback := true } : RunData).usingFallback = true
    ∧ agentConfidence { baseRun with usingFallback := true } = 7 / 10 :=
  ⟨by decide, fallback_confidence_is_constant { baseRun with usingFallback := true } (by decide)⟩

/-- A GoPlus response that was successfully checked but carries no data. -/
def goplusCheckedEmpty : GoplusResult :=
  { checked := true, is_honeypot := none, buy_tax := none, sell_tax := none
  , hidden_owner := none, cannot_sell_all := none }

/-- C5 (code evaluated at the failing input): in a full-path run the
confidence returned by the agent is the same — exactly 0.5 — whether or not
GoPlus was successfully checked, because `analyzeContract` passes only
`codeAnalysis` and `ownershipAnalysis` to `calculateConfidence`; yet
`calculateConfidence` itself would award +0.15 for the run's checked GoPlus
result had it been passed (third conjunct). -/
theorem run_confidence_ignores_goplus_check :
    agentConfidence { baseRun with goplusResult := some goplusCheckedEmpty }
      = agentConfidence baseRun
    ∧ agentConfidence { baseRun with goplusResult := some goplusCheckedEmpty }
      = 1 / 2
    ∧ confGoplusInc (buildAnalyses { baseRun with goplusResult := some goplusCheckedEmpty })
      = 3 / 20 := by
  refine ⟨?_, ?_, ?_⟩
  · rfl
  · norm_num +decide [agentConfidence, calculateConfidence, confSourceInc, confOwnerInc,
      confLiquidityInc, confAgeInc, confSnifferInc, confGoplusInc, confCreatorInc,
      baseRun, emptyContractInfo, ciVerified, ciAge, jsTruthyQ, optGtQ]
  · norm_num +decide [confGoplusInc, buildAnalyses, baseRun]

/-! ### C4: the weighted-sum decomposition

The next definitions transcribe the *spec's wording* of the weighted sum, to
be compared with the code's accumulation: internal is the sum of the four
analyzer contributions, external the sum of the oracle contributions plus
the derived findings for old-but-absent-from-security-databases tokens and
for old contracts with suspiciously low activity. -/

/-- Spec-worded internal sum: code, ownership, liquidity and behavior
contributions only. -/
def claimInternalSum (a : Analyses) : ℚ :=
  codeContribution a
    + ((a.ownershipAnalysis.map (·.score)).getD 0)
    + ((a.liquidityAnalysis.map (·.score)).getD 0)
    + ((a.behaviorAnalysis.map (·.score)).getD 0)

/-- The five oracle contributions (Token Sniffer, GoPlus, creator history,
holder concentration, creator holding). -/
def claimOracleSum (a : Analyses) : ℚ :=
  contribOf a.tokenSnifferRisk
    + contribOf a.goplusRisk
    + contribOfCreator a.creatorHistoryAnalysis
    + contribOf a.holderAnalysis
    + contribOf a.creatorHoldingAnalysis

/-- Spec-worded external sum: oracle contributions, plus the derived
findings for tokens absent from the security databases while old, and for
old contracts with suspiciously low activity. -/
def claimExternalSum (a : Analyses) : ℚ :=
  claimOracleSum a
    + findingsSum ((detectAPINotFound a.tokenSnifferResult a.goplusResult a.contractInfo).filter
        (fun f => f.ftype == "not_in_security_databases" || f.ftype == "no_trading_data"))
    + findingsSum ((detectSuspiciousPatterns a.contractInfo).filter
        (fun f => f.ftype == "abandoned_or_suspicious"))

/-- The claimed pre-override score formula
`clamp(50 + 0.4·internal + 0.6·external, 0, 100)` over the spec-worded
sums. -/
def claimWeightedFormula (a : Analyses) : ℚ :=
  max 0 (min 100 (50 + (claimInternalSum a * (2 / 5) + claimExternalSum a * (3 / 5))))

/-- A concrete verified contract, 400 days old with 100 transactions: its
only non-zero contribution is the `abandoned_or_suspicious` finding (+15). -/
def lowActivityAnalyses : Analyses :=
  { emptyAnalyses with
    codeAnalysis := some { analyzed := true, score := 0 }
  , contractInfo := some { emptyContractInfo with
      address := some "0x1234"
    , name := some "Nice token"
    , symbol := some "TOK"
    , verified := true
    , ageInDays := some 400
    , transactionCount := some 100
    , creator := some "0xabc"
    , creationTxHash := some "0x1" } }

/-- Counterexample to C4 as stated: for an old, verified, low-activity
contract the spec-worded formula puts the +15 `abandoned_or_suspicious`
finding on the external (0.6) side and yields 59, while the code adds it to
`internalAdjustments` (0.4 side) and its pre-override value is 56. -/
theorem weighted_sum_placement_counterexample :
    claimWeightedFormula lowActivityAnalyses = 59
    ∧ clampedScore lowActivityAnalyses = 56
    ∧ calculateRiskScore lowActivityAnalyses = 56 := by
  refine ⟨?_, ?_, ?_⟩
  · norm_num +decide [claimWeightedFormula, claimInternalSum, claimExternalSum, claimOracleSum,
      codeContribution, findingsSum, detectSuspiciousPatterns, detectAPINotFound,
      contribOf, contribOfCreator, lowActivityAnalyses, emptyAnalyses, emptyContractInfo,
      ciAddress, ciVerified, ciAge, ciTxCount, jsTruthyStr, jsTruthyQ, optGtQ, optLtQ,
      isKnownSafeToken, lowerStr, List.filter]
  · norm_num +decide [clampedScore, internalAdjustments, externalAdjustments, codeContribution,
      findingsSum, detectSuspiciousPatterns, detectAPINotFound, contribOf, contribOfCreator,
      lowActivityAnalyses, emptyAnalyses, emptyContractInfo, ciAddress, ciVerified, ciAge,
      ciTxCount, jsTruthyStr, jsTruthyQ, optGtQ, optLtQ, isKnownSafeToken, lowerStr]
  · norm_num +decide [calculateRiskScore, overriddenScore, clampedScore, safeOverrideApplies,
      internalAdjustments, externalAdjustments, codeContribution, findingsSum,
      detectSuspiciousPatterns, detectAPINotFound, contribOf, contribOfCreator,
      detectScamKeywords, scamKeywords, lowActivityAnalyses, emptyAnalyses, emptyContractInfo,
      ciAddress, ciName, ciSymbol, ciVerified, ciAge, ciTxCount, jsTruthyStr, jsTruthyQ,
      optGtQ, optLtQ, jsRound, isKnownSafeToken, isStablecoin, lowerStr, jsIncludes,
      Int.floor_eq_iff]

theorem detectSuspiciousPatterns_types (ci : Option ContractInfo) :
    ∀ f ∈ detectSuspiciousPatterns ci,
      f.ftype = "abandoned_or_suspicious" ∨ f.ftype = "unverified_old_contract" := by
  intro f hf
  rw [detectSuspiciousPatterns] at hf
  split at hf
  · simp at hf
  · rcases List.mem_append.mp hf with h | h
    · split at h
      · dsimp only at h
        split at h
        · left; rcases List.mem_singleton.mp h with rfl; rfl
        · simp at h
      · simp at h
    · split at h
      · right; rcases List.mem_singleton.mp h with rfl; rfl
      · simp at h

theorem detectAPINotFound_types (ts : Option TokenSnifferResult) (g : Option GoplusResult)
    (ci : Option ContractInfo) :
    ∀ f ∈ detectAPINotFound ts g ci,
      f.ftype = "contract_not_found" ∨ f.ftype = "not_in_security_databases"
        ∨ f.ftype = "no_trading_data" := by
  intro f hf
  rw [detectAPINotFound] at hf
  split at hf
  · left; rcases List.mem_singleton.mp hf with rfl; rfl
  · rcases List.mem_append.mp hf with h | h
    · cases g with
      | none => simp at h
      | some g =>
        simp only [] at h
        split at h
        · right; left; rcases List.mem_singleton.mp h with rfl; rfl
        · simp at h
    · cases g with
      | none => simp at h
      | some g =>
        simp only [] at h
        split at h
        · right; right; rcases List.mem_singleton.mp h with rfl; rfl
        · simp at h

theorem filter_eq_self_of_types {p : Finding → Bool} {l : List Finding}
    (h : ∀ f ∈ l, p f = true) : l.filter p = l :=
  List.filter_eq_self.mpr h

/-- C4 (amended): the code's pre-override value is
`clamp(50 + 0.4·internal + 0.6·external, 0, 100)`, where internal is the sum
of the four analyzer contributions *plus both suspicious-pattern findings*
(old-with-low-activity +15 and unverified-old +20), and external is the sum
of the oracle contributions plus *all three* API-not-found findings
(contract-not-found +40, not-in-security-databases +10, no-trading-data
+10); overrides and rounding come after. -/
theorem weighted_sum_decomposition (a : Analyses) :
    clampedScore a
      = max 0 (min 100 (50
        + ((claimInternalSum a
            + findingsSum ((detectSuspiciousPatterns a.contractInfo).filter
                (fun f => f.ftype == "abandoned_or_suspicious"
                  || f.ftype == "unverified_old_contract"))) * (2 / 5)
          + (claimOracleSum a
            + findingsSum ((detectAPINotFound a.tokenSnifferResult a.goplusResult
                  a.contractInfo).filter
                (fun f => f.ftype == "contract_not_found"
                  || f.ftype == "not_in_security_databases"
                  || f.ftype == "no_trading_data"))) * (3 / 5)))) := by
  have h1 : (detectSuspiciousPatterns a.contractInfo).filter
      (fun f => f.ftype == "abandoned_or_suspicious"
        || f.ftype == "unverified_old_contract") = detectSuspiciousPatterns a.contractInfo := by
    refine filter_eq_self_of_types (fun f hf => ?_)
    rcases detectSuspiciousPatterns_types a.contractInfo f hf with h | h <;> simp [h]
  have h2 : (detectAPINotFound a.tokenSnifferResult a.goplusResult a.contractInfo).filter
      (fun f => f.ftype == "contract_not_found"
        || f.ftype == "not_in_security_databases"
        || f.ftype == "no_trading_data")
      = detectAPINotFound a.tokenSnifferResult a.goplusResult a.contractInfo := by
    refine filter_eq_self_of_types (fun f hf => ?_)
    rcases detectAPINotFound_types a.tokenSnifferResult a.goplusResult a.contractInfo f hf
      with h | h | h <;> simp [h]
  rw [h1, h2, clampedScore, internalAdjustments, externalAdjustments,
    claimInternalSum, claimOracleSum]

/-! ### The SQLite result cache (`CacheDB` in `src/database/cache.js`) -/

/-- One row of the `scan_results` table.  `set` stores the address and chain
lower-cased; `created_at` is a millisecond timestamp. -/
structure CacheRow where
  address : String
  chain : String
  depth : String
  result : String
  created_at : ℤ
  deriving DecidableEq

/-- The `WHERE contract_address = ? AND chain = ? AND scan_depth = ?` match,
with the query parameters lower-cased as in `CacheDB.get` / `delete`. -/
def cacheMatches (addr chain depth : String) (row : CacheRow) : Bool :=
  row.address == lowerStr addr && row.chain == lowerStr chain && row.depth == depth

/-- The cache TTL in milliseconds (`60 * 60 * 1000`, i.e. 3600 seconds). -/
def cacheMaxAge : ℤ := 60 * 60 * 1000

/-- `CacheDB.delete`: remove every row matching the (lower-cased) key. -/
def cacheDelete (db : List CacheRow) (addr chain depth : String) : List CacheRow :=
  db.filter (fun row => !(cacheMatches addr chain depth row))

/-- `CacheDB.get`: look the key up; on a hit older than the TTL delete the
row and miss; otherwise parse the stored JSON payload (`parse` models
`JSON.parse`, `none` being a parse failure caught by the `try/catch`).
Returns the result together with the table state after the read. -/
def cacheGet {α : Type} (parse : String → Option α) (now : ℤ) (db : List CacheRow)
    (addr chain depth : String) : Option α × List CacheRow :=
  match db.find? (cacheMatches addr chain depth) with
  | none => (none, db)
  | some row =>
    if now - row.created_at > cacheMaxAge then (none, cacheDelete db addr chain depth)
    else (parse row.result, db)

theorem cacheDelete_find?_none (db : List CacheRow) (addr chain depth : String) :
    (cacheDelete db addr chain depth).find? (cacheMatches addr chain depth) = none := by
  refine List.find?_eq_none.mpr (fun row hrow => ?_)
  have := (List.mem_filter.mp hrow).2
  simpa using this

/-- C8: every cache read misses (returns `null`) when the key is absent,
when the entry's age exceeds the 3600-second TTL, or when the stored payload
fails to JSON-parse; an over-TTL entry is removed from the table as part of
the read. -/
theorem cache_get_miss_spec {α : Type} (parse : String → Option α) (now : ℤ)
    (db : List CacheRow) (addr chain depth : String) :
    (db.find? (cacheMatches addr chain depth) = none →
      cacheGet parse now db addr chain depth = (none, db))
    ∧ (∀ row, db.find? (cacheMatches addr chain depth) = some row →
        now - row.created_at > cacheMaxAge →
          (cacheGet parse now db addr chain depth).1 = none
          ∧ ((cacheGet parse now db addr chain depth).2).find?
              (cacheMatches addr chain depth) = none)
    ∧ (∀ row, db.find? (cacheMatches addr chain depth) = some row →
        ¬ (now - row.created_at > cacheMaxAge) → parse row.result = none →
          cacheGet parse now db addr chain depth = (none, db)) := by
  refine ⟨?_, ?_, ?_⟩
  · intro h
    rw [cacheGet, h]
  · intro row hrow hage
    rw [cacheGet, hrow]
    dsimp only
    rw [if_pos hage]
    exact ⟨rfl, cacheDelete_find?_none db addr chain depth⟩
  · intro row hrow hage hparse
    rw [cacheGet, hrow]
    dsimp only
    rw [if_neg hage, hparse]

/-- Witness for C8: a concrete expired row is missed and removed, a fresh
but corrupt row is missed without removal, and an absent key is missed. -/
theorem cache_get_miss_spec_witness :
    (([] : List CacheRow).find? (cacheMatches "0xA" "ethereum" "quick") = none
      ∧ cacheGet (fun s => if s == "7" then some 7 else none) 5000000 []
          "0xA" "ethereum" "quick" = (none, []))
    ∧ ([⟨"0xa", "ethereum", "quick", "7", 1000000⟩].find?
          (cacheMatches "0xA" "ethereum" "quick")
        = some ⟨"0xa", "ethereum", "quick", "7", 1000000⟩
      ∧ (5000000 : ℤ) - 1000000 > cacheMaxAge
      ∧ (cacheGet (fun s => if s == "7" then some 7 else none) 5000000
          [⟨"0xa", "ethereum", "quick", "7", 1000000⟩] "0xA" "ethereum" "quick").1 = none
      ∧ ((cacheGet (fun s => if s == "7" then some 7 else none) 5000000
          [⟨"0xa", "ethereum", "quick", "7", 1000000⟩] "0xA" "ethereum" "quick").2).find?
            (cacheMatches "0xA" "ethereum" "quick") = none)
    ∧ ([⟨"0xa", "ethereum", "quick", "corrupt", 1000000⟩].find?
          (cacheMatches "0xA" "ethereum" "quick")
        = some ⟨"0xa", "ethereum", "quick", "corrupt", 1000000⟩
      ∧ cacheGet (fun s => if s == "7" then some (7 : ℕ) else none) 2000000
          [⟨"0xa", "ethereum", "quick", "corrupt", 1000000⟩] "0xA" "ethereum" "quick"
        = (none, [⟨"0xa", "ethereum", "quick", "corrupt", 1000000⟩])) :=
  ⟨⟨by decide,
    (cache_get_miss_spec (fun s => if s == "7" then some 7 else none) 5000000 []
      "0xA" "ethereum" "quick").1 (by decide)⟩,
   ⟨by decide, by decide,
    (cache_get_miss_spec (fun s => if s == "7" then some 7 else none) 5000000
      [⟨"0xa", "ethereum", "quick", "7", 1000000⟩] "0xA" "ethereum" "quick").2.1
      ⟨"0xa", "ethereum", "quick", "7", 1000000⟩ (by decide) (by decide)⟩,
   ⟨by decide,
    (cache_get_miss_spec (fun s => if s == "7" then some 7 else none) 2000000
      [⟨"0xa", "ethereum", "quick", "corrupt", 1000000⟩] "0xA" "ethereum" "quick").2.2
      ⟨"0xa", "ethereum", "quick", "corrupt", 1000000⟩ (by decide) (by decide) (by decide)⟩⟩

/-! ### The liquidity analyzer (`analyzeLiquidity` / `analyzeLiquidityPair`) -/

/-- The zero address. -/
def zeroAddress : String := "0x0000000000000000000000000000000000000000"

/-- The burn address used by the liquidity analyzer. -/
def burnAddress : String := "0x000000000000000000000000000000000000dead"

/-- The `KNOWN_LOCKERS` table, verbatim from the liquidity analyzer
(Unicrypt, PinkLock BSC, PinkLock ETH, burn address) — note the mixed-case
spelling of the two PinkLock entries. -/
def KNOWN_LOCKERS : List String :=
  [ "0x663a5c229c09b049e36dcc11a9b0d4a8eb9db214"
  , "0x71B5759d73262FBb223956913ecF4ecC51057641"
  , "0x407993575c91ce7643a4d4cCACc9A98c36eE1BBE"
  , "0x000000000000000000000000000000000000dead" ]

/-- One LP-token transfer event (`from`, `to`, `value`). -/
structure LPTransfer where
  tfrom : String
  tto : String
  value : ℤ
  deriving DecidableEq

/-- Balance lookup in the insertion-ordered balance map. -/
def getBal (bal : List (String × ℤ)) (k : String) : ℤ :=
  ((bal.find? (fun p => p.1 == k)).map (fun p => p.2)).getD 0

/-- `Map.set`: overwrite in place, or append a new key. -/
def setBal (bal : List (String × ℤ)) (k : String) (v : ℤ) : List (String × ℤ) :=
  if bal.any (fun p => p.1 == k) then
    bal.map (fun p => if p.1 == k then (k, v) else p)
  else bal ++ [(k, v)]

/-- Apply one LP transfer to the balance map: subtract from the (lower-cased)
sender unless it is the zero address, add to the (lower-cased) receiver. -/
def applyLPTransfer (bal : List (String × ℤ)) (t : LPTransfer) : List (String × ℤ) :=
  let f := lowerStr t.tfrom
  let tto := lowerStr t.tto
  let bal1 := if f == zeroAddress then bal else setBal bal f (getBal bal f - t.value)
  setBal bal1 tto (getBal bal1 tto + t.value)

/-- An LP holder entry as recorded by `analyzeLiquidityPair`.  `percentage`
is `Number((balance * 10000n) / totalSupply) / 100`, an exact two-decimal
rational. -/
structure LPHolder where
  address : String
  percentage : ℚ
  isLocker : Bool
  isBurned : Bool
  deriving DecidableEq

/-- Result of `analyzeLiquidityPair`. -/
structure PairAnalysis where
  locked : Bool
  burned : Bool
  holders : List LPHolder
  deriving DecidableEq

/-- `analyzeLiquidityPair`: derive balances from the transfer ledger, then
classify every holder with a positive balance of at least 1%: it is burned
when its address is the burn or zero address, locked when burned or when the
(lower-cased) address occurs verbatim in `KNOWN_LOCKERS`.  (The final
holders sort of the original is omitted; all uses here are
order-insensitive, and both divisions below are on non-negative operands, as
in the BigInt original.) -/
def analyzeLiquidityPair (lpTransfers : List LPTransfer) (totalSupply : ℤ) : PairAnalysis :=
  let balances := lpTransfers.foldl applyLPTransfer []
  balances.foldl
    (fun analysis entry =>
      if entry.2 ≤ 0 then analysis
      else
        let percentage : ℚ := ((entry.2 * 10000 / totalSupply : ℤ) : ℚ) / 100
        if percentage < 1 then analysis
        else
          let isBurn := entry.1 == burnAddress || entry.1 == zeroAddress
          let isLock := KNOWN_LOCKERS.contains entry.1
          { locked := analysis.locked || isBurn || isLock
          , burned := analysis.burned || isBurn
          , holders := analysis.holders ++ [⟨entry.1, percentage, isLock, isBurn⟩] })
    ⟨false, false, []⟩

/-- The scoring step of `analyzeLiquidity` (lines 52–123): +5 when no pair
exists, −10 when some pair is locked or burned, otherwise +15 when the
deployer holds more than 50% of LP tokens (rug-capable) and +10 when not
(merely unlocked). -/
def analyzeLiquidityScore (pairs : List (List LPTransfer × ℤ)) (creator : Option String) : ℚ :=
  if pairs.isEmpty then 5
  else
    let pairAnalyses := pairs.map (fun p => analyzeLiquidityPair p.1 p.2)
    let lpLocked := pairAnalyses.any (fun p => p.locked)
    let lpBurned := pairAnalyses.any (fun p => p.burned)
    if lpLocked || lpBurned then -10
    else
      let lpHolders := (pairAnalyses.map (fun p => p.holders)).flatten
      let creatorHoldsLP := lpHolders.any (fun holder =>
        (match creator with
          | some c => lowerStr holder.address == lowerStr c
          | none => false)
          && decide (holder.percentage > 50))
      if creatorHoldsLP then 15 else 10

/-- C6 (code evaluated at the failing input): the PinkLock ETH address is a
member of the fixed `KNOWN_LOCKERS` set, yet a pair whose entire supply
sits at that address is *not* classified as locked — the holder address is
lower-cased before the case-sensitive `includes` comparison, so the two
mixed-case PinkLock entries never match (the all-lower-case Unicrypt entry
does, fourth conjunct); consequently the pair scores +10 instead of −10
(fifth conjunct). -/
theorem locker_classification_fails_for_pinklock :
    KNOWN_LOCKERS.contains "0x407993575c91ce7643a4d4cCACc9A98c36eE1BBE" = true
    ∧ (analyzeLiquidityPair
        [⟨zeroAddress, "0x407993575c91ce7643a4d4cCACc9A98c36eE1BBE", 100⟩] 100).locked = false
    ∧ (analyzeLiquidityPair
        [⟨zeroAddress, "0x407993575c91ce7643a4d4cCACc9A98c36eE1BBE", 100⟩] 100).holders
      = [⟨"0x407993575c91ce7643a4d4ccacc9a98c36ee1bbe", 100, false, false⟩]
    ∧ (analyzeLiquidityPair
        [⟨zeroAddress, "0x663a5c229c09b049e36dcc11a9b0d4a8eb9db214", 100⟩] 100).locked = true
    ∧ analyzeLiquidityScore
        [([⟨zeroAddress, "0x407993575c91ce7643a4d4cCACc9A98c36eE1BBE", 100⟩], 100)]
        (some "0xabc") = 10 := by
  refine ⟨by decide, ?_, ?_, ?_, ?_⟩
  · norm_num +decide [analyzeLiquidityPair, applyLPTransfer, getBal, setBal, zeroAddress,
      burnAddress, KNOWN_LOCKERS, lowerStr]
  · norm_num +decide [analyzeLiquidityPair, applyLPTransfer, getBal, setBal, zeroAddress,
      burnAddress, KNOWN_LOCKERS, lowerStr]
  · norm_num +decide [analyzeLiquidityPair, applyLPTransfer, getBal, setBal, zeroAddress,
      burnAddress, KNOWN_LOCKERS, lowerStr]
  · norm_num +decide [analyzeLiquidityScore, analyzeLiquidityPair, applyLPTransfer, getBal,
      setBal, zeroAddress, burnAddress, KNOWN_LOCKERS, lowerStr]

/-! ### The code pattern analyzer (`src/analyzers/code-analyzer.js`)

The red-flag regexes use only literal characters, `\s*`/`\s+`, `.*`,
negated single-character classes (`[^)]*`, `[^{]*`), digit ranges and
top-level alternation, all under the `i` flag.  They are embedded as token
sequences with an explicit backtracking matcher; alternation is expanded
into separate token sequences (a regex `A(B|C)D` tests positively iff `ABD`
or `ACD` occurs). -/

/-- A single-character class of the embedded regexes. -/
inductive CClass where
  | chC (c : Char)
  | rangeC (lo hi : Char)
  | notC (c : Char)
  | anyNoNL
  | spaceC
  deriving DecidableEq

/-- Does the class match a character (case-insensitively, for the `i`
flag)?  `spaceC` is `\s` restricted to ASCII whitespace; `anyNoNL` is `.`
(anything but a newline). -/
def classMatches : CClass → Char → Bool
  | CClass.chC a, c => c.toLower == a.toLower
  | CClass.rangeC lo hi, c => lo ≤ c && c ≤ hi
  | CClass.notC a, c => c.toLower != a.toLower
  | CClass.anyNoNL, c => c != '\n'
  | CClass.spaceC, c =>
    c == ' ' || c == '\t' || c == '\n' || c == '\r' || c == '\x0b' || c == '\x0c'

/-- One token of an embedded regex: a class, its Kleene star, or its plus. -/
inductive Tok where
  | one (cl : CClass)
  | star (cl : CClass)
  | plus (cl : CClass)
  deriving DecidableEq

/-- Fuelled backtracking matcher: does some prefix of `s` match the token
sequence?  Every recursive call decreases `toks.length + s.length`, so the
fuel `toks.length + s.length + 1` used below never runs out. -/
def matchToksF : Nat → List Tok → List Char → Bool
  | 0, _, _ => false
  | _ + 1, [], _ => true
  | n + 1, Tok.one cl :: ts, s =>
    match s with
    | [] => false
    | c :: cs => classMatches cl c && matchToksF n ts cs
  | n + 1, Tok.star cl :: ts, s =>
    matchToksF n ts s
      || (match s with
          | [] => false
          | c :: cs => classMatches cl c && matchToksF n (Tok.star cl :: ts) cs)
  | n + 1, Tok.plus cl :: ts, s =>
    match s with
    | [] => false
    | c :: cs => classMatches cl c && matchToksF n (Tok.star cl :: ts) cs

/-- Does some prefix of `s` match the token sequence? -/
def matchToks (toks : List Tok) (s : List Char) : Bool :=
  matchToksF (toks.length + s.length + 1) toks s

/-- Does the token sequence match starting at any position of `s`? -/
def reTestChars (toks : List Tok) : List Char → Bool
  | [] => matchToks toks []
  | c :: cs => matchToks toks (c :: cs) || reTestChars toks cs

/-- `regex.test(s)` for an embedded regex. -/
def jsRegexTest (toks : List Tok) (s : String) : Bool :=
  reTestChars toks s.data

/-- A sequence of literal characters. -/
def lits (s : String) : List Tok :=
  s.data.map (fun c => Tok.one (CClass.chC c))

/-- The opening-brace character (written numerically). -/
def lbrace : Char := Char.ofNat 123

/-- `\s*`. -/
def spStar : Tok := Tok.star CClass.spaceC

/-- `\s+`. -/
def spPlus : Tok := Tok.plus CClass.spaceC

/-- `.*`. -/
def anyStar : Tok := Tok.star CClass.anyNoNL

/-- The patterns of the `hiddenMint` red flag:
`function\s+mint\s*\([^)]*\)[^{]*{`, `_mint\s*\(`, `\.mint\s*\(`. -/
def hiddenMintPatterns : List (List Tok) :=
  [ lits "function" ++ [spPlus] ++ lits "mint"
      ++ [spStar, Tok.one (CClass.chC '('), Tok.star (CClass.notC ')'), Tok.one (CClass.chC ')')
         , Tok.star (CClass.notC lbrace), Tok.one (CClass.chC lbrace)]
  , lits "_mint" ++ [spStar, Tok.one (CClass.chC '(')]
  , lits ".mint" ++ [spStar, Tok.one (CClass.chC '(')] ]

/-- The two alternatives of `name\s*=\s*([1-9][0-9]|100)`. -/
def taxAssignPatterns (name : String) : List (List Tok) :=
  [ lits name ++ [spStar, Tok.one (CClass.chC '='), spStar
      , Tok.one (CClass.rangeC '1' '9'), Tok.one (CClass.rangeC '0' '9')]
  , lits name ++ [spStar, Tok.one (CClass.chC '='), spStar] ++ lits "100" ]

/-- `//.*<kw>`. -/
def lineCommentPattern (kw : String) : List Tok :=
  lits "//" ++ [anyStar] ++ lits kw

/-- `/\*.*<kw>.*\*/`. -/
def blockCommentPattern (kw : String) : List Tok :=
  lits "/*" ++ [anyStar] ++ lits kw ++ [anyStar] ++ lits "*/"

/-- One entry of `RED_FLAG_PATTERNS`: its key, patterns, severity, score. -/
structure PatternEntry where
  key : String
  patterns : List (List Tok)
  severity : String
  score : ℚ

/-- The `hiddenMint` entry (critical, +15), whose `modifiers` list
(`onlyOwner`, `onlyAdmin`, `onlyMinter`) is `mintModifiers` below. -/
def hiddenMintEntry : PatternEntry :=
  ⟨"hiddenMint", hiddenMintPatterns, "critical", 15⟩

/-- `RED_FLAG_PATTERNS` from `src/analyzers/code-analyzer.js`, in object
order. -/
def RED_FLAG_PATTERNS : List PatternEntry :=
  [ hiddenMintEntry
  , ⟨"selfDestruct",
      [ lits "selfdestruct" ++ [spStar, Tok.one (CClass.chC '(')]
      , lits "suicide" ++ [spStar, Tok.one (CClass.chC '(')] ], "critical", 15⟩
  , ⟨"honeypot",
      [ lits "blacklist" ++ [spStar, Tok.one (CClass.chC '[')]
      , lits "isBlacklisted"
      , lits "_isExcluded"
      , lits "canSell" ++ [spStar, Tok.one (CClass.chC '(')]
      , lits "canTransfer" ++ [spStar, Tok.one (CClass.chC '(')] ], "critical", 15⟩
  , ⟨"delegatecall",
      [ lits "delegatecall" ++ [spStar, Tok.one (CClass.chC '(')]
      , lits ".delegatecall" ++ [spStar, Tok.one (CClass.chC '(')] ], "critical", 15⟩
  , ⟨"pausable",
      [ lits "function" ++ [spPlus] ++ lits "pause" ++ [spStar, Tok.one (CClass.chC '(')]
      , lits "function" ++ [spPlus] ++ lits "unpause" ++ [spStar, Tok.one (CClass.chC '(')]
      , lits "_pause" ++ [spStar, Tok.one (CClass.chC '(')]
      , lits "whenNotPaused" ], "high", 10⟩
  , ⟨"modifiableTax",
      [ lits "setTaxFee", lits "setBuyFee", lits "setSellFee"
      , lits "setFee" ++ [spStar, Tok.one (CClass.chC '(')]
      , lits "updateFee" ], "high", 10⟩
  , ⟨"highTax",
      taxAssignPatterns "_taxFee" ++ taxAssignPatterns "taxFee"
        ++ taxAssignPatterns "buyFee" ++ taxAssignPatterns "sellFee", "high", 10⟩
  , ⟨"ownership",
      [ lits "transferOwnership" ++ [spStar, Tok.one (CClass.chC '(')]
      , lits "renounceOwnership" ++ [spStar, Tok.one (CClass.chC '(')] ], "medium", 5⟩
  , ⟨"maxTransaction",
      [ lits "maxTxAmount", lits "_maxTxAmount", lits "setMaxTx"
      , lits "maxTransactionAmount" ], "medium", 5⟩
  , ⟨"maxWallet",
      [ lits "maxWallet", lits "_maxWalletSize", lits "maxWalletAmount" ], "medium", 5⟩
  , ⟨"antiBot",
      [ lits "isBot" ++ [spStar, Tok.one (CClass.chC '[')]
      , lits "bots" ++ [spStar, Tok.one (CClass.chC '[')]
      , lits "addBot" ++ [spStar, Tok.one (CClass.chC '(')]
      , lits "antiBot" ], "medium", 5⟩
  , ⟨"cooldown",
      [ lits "cooldown", lits "buycooldown", lits "sellcooldown" ], "medium", 5⟩
  , ⟨"scamKeywordsInCode",
      [ lineCommentPattern "scam", blockCommentPattern "scam"
      , lineCommentPattern "honeypot", blockCommentPattern "honeypot"
      , lineCommentPattern "rug", blockCommentPattern "rug"
      , lits "//" ++ [anyStar] ++ lits "exit" ++ [anyStar] ++ lits "scam"
      , lits "/*" ++ [anyStar] ++ lits "exit" ++ [anyStar] ++ lits "scam"
          ++ [anyStar] ++ lits "*/"
      , lits "//" ++ [anyStar] ++ lits "warning" ++ [anyStar] ++ lits "do"
          ++ [anyStar] ++ lits "not" ++ [anyStar] ++ lits "buy"
      , lits "/*" ++ [anyStar] ++ lits "warning" ++ [anyStar] ++ lits "do"
          ++ [anyStar] ++ lits "not" ++ [anyStar] ++ lits "buy"
          ++ [anyStar] ++ lits "*/" ], "critical", 30⟩ ]

/-- One entry of `SAFE_PATTERNS`: its key, patterns and (negative) score. -/
structure SafePatternEntry where
  key : String
  patterns : List (List Tok)
  score : ℚ

/-- `SAFE_PATTERNS` from `src/analyzers/code-analyzer.js`. -/
def SAFE_PATTERNS : List SafePatternEntry :=
  [ ⟨"renounceOwnership",
      [ lits "renounceOwnership" ++ [spStar, Tok.one (CClass.chC '('), spStar
          , Tok.one (CClass.chC ')'), spStar] ++ lits "public"
      , lits "renounceOwnership" ++ [spStar, Tok.one (CClass.chC '('), spStar
          , Tok.one (CClass.chC ')'), spStar] ++ lits "external" ], -10⟩
  , ⟨"timelockPresent",
      [ lits "timelock"
      , lits "TimelockController"
      , lits "delay" ++ [spStar, Tok.one (CClass.chC '='), spStar
          , Tok.plus (CClass.rangeC '0' '9'), spStar] ++ lits "days" ], -10⟩
  , ⟨"audited",
      [ lits "@audit", lits "audited by", lits "security audit" ], -5⟩
  , ⟨"openZeppelin",
      [ lits "import" ++ [anyStar] ++ lits "@openzeppelin"
      , lits "OpenZeppelin" ], -5⟩ ]

/-- The restriction modifiers attached to the `hiddenMint` entry. -/
def mintModifiers : List String := ["onlyOwner", "onlyAdmin", "onlyMinter"]

/-- `sourceCode.toLowerCase().includes(modifier.toLowerCase())` for some
restriction modifier. -/
def hasRestrictedModifier (src : String) : Bool :=
  mintModifiers.any (fun m => jsIncludes (lowerStr src) (lowerStr m))

/-- Does any of the entry's patterns test positively on the source? -/
def patternFound (pats : List (List Tok)) (src : String) : Bool :=
  pats.any (fun p => jsRegexTest p src)

/-- A vulnerability pushed by `analyzeSourceCode`. -/
structure Vuln where
  vtype : String
  severity : String
  score : ℚ

/-- The contribution of one red-flag entry to `analyzeSourceCode`'s output:
`none` when the entry is not reported.  A found `hiddenMint` is reported
only when a restriction modifier is present; a found `delegatecall` on a
proxy is downgraded to severity "low" with score 2. -/
def redFlagContribution (e : PatternEntry) (src : String) (isProxy : Bool) : Option Vuln :=
  let found := patternFound e.patterns src
  if e.key == "hiddenMint" then
    if found && hasRestrictedModifier src then some ⟨e.key, e.severity, e.score⟩ else none
  else if e.key == "delegatecall" && found && isProxy then some ⟨e.key, "low", 2⟩
  else if found then some ⟨e.key, e.severity, e.score⟩ else none

/-- The contribution of one safe-pattern entry (its key and negative
score). -/
def safeContribution (e : SafePatternEntry) (src : String) : Option (String × ℚ) :=
  if patternFound e.patterns src then some (e.key, e.score) else none

/-- Result of `analyzeSourceCode`. -/
structure CodeAnalysisFull where
  analyzed : Bool
  vulnerabilities : List Vuln
  safePatternsFound : List (String × ℚ)
  score : ℚ

/-- `analyzeSourceCode` from `src/analyzers/code-analyzer.js`: empty source
is not analyzed; otherwise every red-flag and safe-pattern entry contributes
independently, and the score is the sum of all contributions. -/
def analyzeSourceCode (sourceCode : String) (isProxy : Bool) : CodeAnalysisFull :=
  if sourceCode == "" then ⟨false, [], [], 0⟩
  else
    let vulns := RED_FLAG_PATTERNS.filterMap (fun e => redFlagContribution e sourceCode isProxy)
    let safes := SAFE_PATTERNS.filterMap (fun e => safeContribution e sourceCode)
    ⟨true, vulns, safes, (vulns.map (fun v => v.score)).sum + (safes.map (fun p => p.2)).sum⟩

theorem redFlagContribution_vtype {e : PatternEntry} {src : String} {isProxy : Bool}
    {v : Vuln} (h : redFlagContribution e src isProxy = some v) : v.vtype = e.key := by
  rw [redFlagContribution] at h
  split at h
  · split at h
    · cases h; rfl
    · cases h
  · split at h
    · cases h; rfl
    · split at h
      · cases h; rfl
      · cases h

theorem any_vtype_filterMap (src : String) (isProxy : Bool) (K : String)
    (l : List PatternEntry) :
    ((l.filterMap (fun e => redFlagContribution e src isProxy)).any (fun v => v.vtype == K))
      = l.any (fun e => e.key == K && (redFlagContribution e src isProxy).isSome) := by
  induction l with
  | nil => rfl
  | cons e l ih =>
    rw [List.filterMap_cons]
    cases h : redFlagContribution e src isProxy with
    | none => simp [h, ih]
    | some v =>
      have hv := redFlagContribution_vtype h
      simp [h, ih, hv]

theorem hiddenMint_contribution_isSome (src : String) (isProxy : Bool) :
    (redFlagContribution hiddenMintEntry src isProxy).isSome
      = (patternFound hiddenMintPatterns src && hasRestrictedModifier src) := by
  rw [redFlagContribution]
  rw [if_pos (by rfl : (hiddenMintEntry.key == "hiddenMint") = true)]
  split
  · rename_i hc
    simp only [Option.isSome_some]
    exact hc.symm
  · rename_i hc
    simp only [Bool.not_eq_true] at hc
    simp only [Option.isSome_none]
    exact hc.symm

theorem filterMap_eq_on_filter {α β : Type} (p : α → Bool) (f : α → Option β) :
    ∀ l : List α, (∀ e ∈ l, p e = false → f e = none) →
      l.filterMap f = (l.filter p).filterMap f := by
  intro l
  induction l with
  | nil => intro _; rfl
  | cons a l ih =>
    intro h
    have hl := ih (fun e he hpe => h e (List.mem_cons_of_mem a he) hpe)
    rw [List.filter_cons]
    cases hp : p a with
    | true => rw [List.filterMap_cons, if_pos rfl, List.filterMap_cons, hl]
    | false =>
      have ha : f a = none := h a (List.mem_cons_self a l) hp
      rw [List.filterMap_cons, ha, if_neg (by simp), hl]

theorem redFlagContribution_none_of_hiddenMint_unrestricted {src : String} {isProxy : Bool}
    (hmod : hasRestrictedModifier src = false) (e : PatternEntry)
    (hk : (e.key != "hiddenMint") = false) : redFlagContribution e src isProxy = none := by
  have hkey : (e.key == "hiddenMint") = true := by
    have he : e.key = "hiddenMint" := by simpa using hk
    simp [he]
  rw [redFlagContribution]
  rw [if_pos hkey, hmod]
  simp

/-- C7: `analyzeSourceCode` reports `hiddenMint` exactly when a mint pattern
matches and a restriction modifier (`onlyOwner` / `onlyAdmin` /
`onlyMinter`) occurs in the source; when no restriction modifier is present
the mint finding is excluded and contributes zero to the code score — the
score is the sum over the other red flags and the safe patterns alone. -/
theorem unrestricted_mint_not_actionable (src : String) (isProxy : Bool) (hne : src ≠ "") :
    ((analyzeSourceCode src isProxy).vulnerabilities.any (fun v => v.vtype == "hiddenMint")
      = (patternFound hiddenMintPatterns src && hasRestrictedModifier src))
    ∧ (hasRestrictedModifier src = false →
        (analyzeSourceCode src isProxy).score
          = ((((RED_FLAG_PATTERNS.filter (fun e => e.key != "hiddenMint")).filterMap
                (fun e => redFlagContribution e src isProxy)).map (fun v => v.score)).sum
            + ((SAFE_PATTERNS.filterMap (fun e => safeContribution e src)).map
                (fun p => p.2)).sum)) := by
  have hsrc : (src == "") = false := beq_eq_false_iff_ne.mpr hne
  have hvuln : (analyzeSourceCode src isProxy).vulnerabilities
      = RED_FLAG_PATTERNS.filterMap (fun e => redFlagContribution e src isProxy) := by
    rw [analyzeSourceCode, hsrc]
    rfl
  have hscore : (analyzeSourceCode src isProxy).score
      = ((RED_FLAG_PATTERNS.filterMap (fun e => redFlagContribution e src isProxy)).map
          (fun v => v.score)).sum
        + ((SAFE_PATTERNS.filterMap (fun e => safeContribution e src)).map (fun p => p.2)).sum := by
    rw [analyzeSourceCode, hsrc]
    rfl
  constructor
  · rw [hvuln, any_vtype_filterMap]
    rw [show RED_FLAG_PATTERNS = hiddenMintEntry :: RED_FLAG_PATTERNS.tail from rfl]
    rw [List.any_cons]
    rw [hiddenMint_contribution_isSome]
    have htail : RED_FLAG_PATTERNS.tail.any
        (fun e => e.key == "hiddenMint" && (redFlagContribution e src isProxy).isSome)
        = false := by
      refine List.any_eq_false.mpr (fun e he => ?_)
      fin_cases he <;> simp
    rw [htail, Bool.or_false]
    rfl
  · intro hmod
    rw [hscore]
    rw [filterMap_eq_on_filter (fun e => e.key != "hiddenMint")
      (fun e => redFlagContribution e src isProxy) RED_FLAG_PATTERNS
      (fun e _ hk => redFlagContribution_none_of_hiddenMint_unrestricted hmod e hk)]

/-- Witness for C7: a source with an unrestricted `mint` function (the mint
pattern matches, no restriction modifier) reports no `hiddenMint`
vulnerability. -/
theorem unrestricted_mint_not_actionable_witness :
    ("function mint(address to) public \x7b balances[to] += 1; \x7d" ≠ "")
    ∧ patternFound hiddenMintPatterns "function mint(address to) public \x7b balances[to] += 1; \x7d" = true
    ∧ hasRestrictedModifier "function mint(address to) public \x7b balances[to] += 1; \x7d" = false
    ∧ (analyzeSourceCode "function mint(address to) public \x7b balances[to] += 1; \x7d"
        false).vulnerabilities.any (fun v => v.vtype == "hiddenMint") = false
    ∧ (analyzeSourceCode "function mint(address to) public \x7b balances[to] += 1; \x7d" false).score
      = ((((RED_FLAG_PATTERNS.filter (fun e => e.key != "hiddenMint")).filterMap
            (fun e => redFlagContribution e
              "function mint(address to) public \x7b balances[to] += 1; \x7d" false)).map
            (fun v => v.score)).sum
        + ((SAFE_PATTERNS.filterMap (fun e => safeContribution e
              "function mint(address to) public \x7b balances[to] += 1; \x7d")).map (fun p => p.2)).sum) := by
  refine ⟨by decide, by decide, by decide, ?_, ?_⟩
  · rw [(unrestricted_mint_not_actionable
      "function mint(address to) public \x7b balances[to] += 1; \x7d" false (by decide)).1]
    decide
  · exact (unrestricted_mint_not_actionable
      "function mint(address to) public \x7b balances[to] += 1; \x7d" false (by decide)).2 (by decide)

end RiskScorer
